import Mathlib

/-!
Verification of the comment continuation engine of youtube-comment-explorer,
a shallow embedding of `src/ytce/youtube/comments.py` in Lean 4.

Modelling conventions:
* JSON values are a tagged variant; numbers are exact rationals (Python's
  float arithmetic is replaced by exact rational arithmetic; every concrete
  value checked below is one on which the two agree).
* Python `None` is `Json.null`; Python truthiness is the `truthy` function.
* Dictionary indexing `d[k]` is `idx?` (`none` models the `KeyError` /
  `TypeError` that a missing key or a non-dict raises); `d.get(k, default)`
  is `jgetD`, totalised with its default when the receiver is not an object.
  Out-of-shape accesses on which CPython would raise `TypeError` deep inside
  a strategy (for example calling `.lower()` on a non-string) are totalised
  via `asString`; no claim below depends on those paths.
* The HTTP transport (`ytce.youtube.innertube.inertube_ajax_request`, an
  external collaborator per the spec) is an oracle `trans : Nat → Json`
  giving the response to the n-th request issued during one run.
* The generator `get_comments_from_url` is modelled as a function producing
  the full trace of observable events (requests issued, items yielded,
  fatal errors raised) of one fully-consumed run; the drain loop takes a
  fuel parameter (out of fuel produces the empty suffix, used only with
  enough fuel on concrete inputs).
-/

namespace Ytce

/-- A JSON-like value as traversed by the engine.  Objects keep their fields
in document order; hand-written values below always have distinct keys, as
Python dicts do. -/
inductive Json where
  | obj : List (String × Json) → Json
  | arr : List Json → Json
  | str : String → Json
  | num : ℚ → Json
  | bool : Bool → Json
  | null : Json

/-- Python truthiness of a JSON value (`if x:`). -/
def truthy : Json → Bool
  | .obj kvs => !kvs.isEmpty
  | .arr xs => !xs.isEmpty
  | .str s => s != ""
  | .num q => q != 0
  | .bool b => b
  | .null => false

/-- Python `d[k]` on a dict: `some` value on a hit (last binding wins, as in
a parsed-JSON dict), `none` when the key is absent or the receiver is not a
dict (both raise in Python). -/
def idx? (j : Json) (k : String) : Option Json :=
  match j with
  | .obj kvs => List.lookup k kvs.reverse
  | _ => none

/-- Python `d.get(k, default)`. -/
def jgetD (j : Json) (k : String) (d : Json) : Json :=
  (idx? j k).getD d

/-- Python `k in d` on a dict (false on non-dicts; the engine only applies it to
continuation items, which are dicts). -/
def hasKey (j : Json) (k : String) : Bool :=
  match j with
  | .obj kvs => kvs.any (fun p => p.1 == k)
  | _ => false

/-- A value that the code then uses as a string (totalising stand-in: a
non-string becomes `""`, a path on which CPython would raise). -/
def asString : Json → String
  | .str s => s
  | _ => ""

/-- A value that the code then iterates as a list. -/
def asArr : Json → List Json
  | .arr xs => xs
  | _ => []

mutual
/-- Modelled from the spec: StructuralSearch (§4.1), the `search_dict`
helper of `ytce/youtube/pagination.py`, which is not under `src/`.  Per the
spec it traverses the tree in one deterministic document-order walk,
recursing into object values and array elements, and produces every value
found under a field named `key`, at any depth. -/
def searchJson (key : String) : Json → List Json
  | .obj kvs => searchKvs key kvs
  | .arr xs => searchArr key xs
  | _ => []

/-- Document-order walk over the fields of an object (helper of
`searchJson`). -/
def searchKvs (key : String) : List (String × Json) → List Json
  | [] => []
  | (k, v) :: rest =>
      (if k == key then [v] else []) ++ searchJson key v ++ searchKvs key rest

/-- Document-order walk over the elements of an array (helper of
`searchJson`). -/
def searchArr (key : String) : List Json → List Json
  | [] => []
  | v :: rest => searchJson key v ++ searchArr key rest
end

/-! ### Python string primitives used by `_parse_comment_count` -/

/-- ASCII lowering, the fragment of `str.lower()` the engine's inputs
exercise. -/
def pyLower (s : String) : String :=
  (s.toList.map Char.toLower).asString

/-- The whitespace set of `str.strip()` (ASCII fragment). -/
def isPySpace (c : Char) : Bool :=
  c == ' ' || c == '\t' || c == '\n' || c == '\r' || c == '\x0b' || c == '\x0c'

/-- Python `str.strip()`. -/
def pyStrip (s : String) : String :=
  (((s.toList.dropWhile isPySpace).reverse.dropWhile isPySpace).reverse).asString

/-- Left-to-right non-overlapping replacement on character lists, the
semantics of `str.replace` for a non-empty pattern (the engine only
replaces `"comments"`, `"comment"` and `","`).  Structural recursion on a
fuel bounded below by the list length, so that the kernel can evaluate it;
with a non-empty pattern each step consumes at least one character, so the
fuel is never exhausted. -/
def replaceL (pat rep : List Char) : Nat → List Char → List Char
  | _, [] => []
  | 0, l => l
  | fuel + 1, c :: rest =>
      if pat.isPrefixOf (c :: rest) && !pat.isEmpty then
        rep ++ replaceL pat rep fuel ((c :: rest).drop pat.length)
      else
        c :: replaceL pat rep fuel rest

/-- Python `str.replace(pat, rep)`. -/
def pyReplace (s pat rep : String) : String :=
  (replaceL pat.toList rep.toList s.toList.length s.toList).asString

/-- Python `s.endswith(c)` for a single character. -/
def endsWithCh (s : String) (c : Char) : Bool :=
  s.toList.getLast? == some c

/-- Python `s[:-1]`. -/
def dropLastStr (s : String) : String :=
  s.toList.dropLast.asString

/-- Split a character list on every `'.'` (used to recognise Python float
literals). -/
def splitDots : List Char → List (List Char)
  | [] => [[]]
  | c :: rest =>
      if c == '.' then [] :: splitDots rest
      else
        match splitDots rest with
        | seg :: segs => (c :: seg) :: segs
        | [] => [[c]]

/-- Numeric value of a digit run. -/
def digitsVal (l : List Char) : Nat :=
  l.foldl (fun a c => a * 10 + (c.toNat - 48)) 0

/-- Python `float(s)` on the unsigned decimal literals the count parser feeds it,
as an exact nonnegative rational `(numerator, denominator)` with the
denominator a power of ten; any other string is a `ValueError` (`none`).
IEEE rounding is not modelled; on every literal checked in this file the
double computation and the exact one truncate to the same integer. -/
def pyFloat (s : String) : Option (Nat × Nat) :=
  match splitDots s.toList with
  | [a] =>
      if a ≠ [] ∧ a.all Char.isDigit then some (digitsVal a, 1) else none
  | [a, b] =>
      if (a ≠ [] ∨ b ≠ []) ∧ a.all Char.isDigit ∧ b.all Char.isDigit then
        some (digitsVal a * 10 ^ b.length + digitsVal b, 10 ^ b.length)
      else none
  | _ => none

/-- Python `int(x)` on a rational: truncation toward zero. -/
def pyInt (q : ℚ) : Int :=
  q.num.tdiv (q.den : Int)

/-- The maximal runs of digit characters of a string, in order:
`re.findall(r"\d+", s)`. -/
def digitRuns (s : String) : List (List Char) :=
  go s.toList
where
  /-- Recursive worker over the character list. -/
  go : List Char → List (List Char)
  | [] => []
  | c :: rest =>
      if c.isDigit then
        match rest with
        | r :: _ =>
            if r.isDigit then
              match go rest with
              | run :: runs => (c :: run) :: runs
              | [] => [[c]]
            else [c] :: go rest
        | [] => [[c]]
      else go rest

/-- The model of `YoutubeCommentDownloader._parse_comment_count`.  The two branches of
the Python `try` body compute the same expression `int(float(s) *
multiplier)`, collapsed here into one. -/
def parse_comment_count (count_str : String) : Option Int :=
  if count_str == "" then none
  else
    let s1 := pyStrip (pyReplace (pyReplace (pyLower count_str) "comments" "") "comment" "")
    let suffix : Option Nat :=
      if endsWithCh s1 'k' then some 1000
      else if endsWithCh s1 'm' then some 1000000
      else if endsWithCh s1 'b' then some 1000000000
      else none
    let mult : Nat := suffix.getD 1
    let s2 := if suffix.isSome then dropLastStr s1 else s1
    let s3 := pyReplace s2 "," ""
    match pyFloat s3 with
    | some nd => some (Int.ofNat (nd.1 * mult / nd.2))
    | none =>
        match digitRuns s1 with
        | [] => none
        | n0 :: rest =>
            let base : Nat × Nat :=
              if rest ≠ [] ∧ s1.toList.contains '.' then
                (digitsVal n0 * 10 ^ (rest.headD []).length + digitsVal (rest.headD []),
                 10 ^ (rest.headD []).length)
              else (digitsVal n0, 1)
            some (Int.ofNat (base.1 * mult / base.2))

/-! ### `_extract_comment_count`: the five strategies -/

/-- The idiom `parsed = self._parse_comment_count(s); if parsed: return parsed`: the
parse result filtered through Python truthiness (both `None` and `0` fall
through). -/
def truthyParse (s : String) : Option Int :=
  match parse_comment_count s with
  | some n => if n == 0 then none else some n
  | none => none

/-- The access `runs[0].get("text", "")` on a truthy `runs` value (non-arrays are
totalised to `""`: paths on which CPython raises). -/
def runsFirstText (runsJ : Json) : String :=
  match runsJ with
  | .arr (r :: _) => asString (jgetD r "text" (.str ""))
  | _ => ""

/-- The run/simpleText extraction shared verbatim by strategies 1-3 of
`_extract_comment_count`: try `runs[0].text`, then fall through to
`simpleText`. -/
def countTextParse (countText : Json) : Option Int :=
  if truthy countText then
    let fromRuns :=
      if truthy (jgetD countText "runs" (.arr [])) then
        truthyParse (runsFirstText (jgetD countText "runs" (.arr [])))
      else none
    match fromRuns with
    | some n => some n
    | none =>
        let st := asString (jgetD countText "simpleText" (.str ""))
        if st == "" then none else truthyParse st
  else none

/-- Strategy 1: `commentCountRenderer` → its `text`. -/
def strat1 (data : Json) : Option Int :=
  match (searchJson "commentCountRenderer" data).head? with
  | some cr => if truthy cr then countTextParse (jgetD cr "text" (.obj [])) else none
  | none => none

/-- Strategy 2: `headerRenderer` → its `countText`. -/
def strat2 (data : Json) : Option Int :=
  match (searchJson "headerRenderer" data).head? with
  | some hr => if truthy hr then countTextParse (jgetD hr "countText" (.obj [])) else none
  | none => none

/-- The `title` extraction of strategy 3: every run's text is tried in
order, then `simpleText`. -/
def titleParse (title : Json) : Option Int :=
  if truthy title then
    let fromRuns :=
      if truthy (jgetD title "runs" (.arr [])) then
        match jgetD title "runs" (.arr []) with
        | .arr rs => rs.findSome? (fun r => truthyParse (asString (jgetD r "text" (.str ""))))
        | _ => none
      else none
    match fromRuns with
    | some n => some n
    | none =>
        let st := asString (jgetD title "simpleText" (.str ""))
        if st == "" then none else truthyParse st
  else none

/-- Strategy 3: `commentsHeaderRenderer` → its `countText`, then its
`title`. -/
def strat3 (data : Json) : Option Int :=
  match (searchJson "commentsHeaderRenderer" data).head? with
  | some ch =>
      if truthy ch then
        countTextParse (jgetD ch "countText" (.obj [])) <|>
          titleParse (jgetD ch "title" (.obj []))
      else none
  | none => none

/-- Strategy 4: a generic `commentCount` field.  Only a truthy value is
considered (`if comment_count:`); a numeric one is returned as
`int(comment_count)`, a boolean counts as numeric in Python
(`isinstance(True, int)`, so a truthy boolean gives `int(True) = 1`), a
string is parsed with the usual truthiness filter. -/
def strat4 (data : Json) : Option Int :=
  match (searchJson "commentCount" data).head? with
  | some cc =>
      if truthy cc then
        match cc with
        | .num q => some (pyInt q)
        | .bool _ => some 1
        | .str s => truthyParse s
        | _ => none
      else none
  | none => none

/-- Python `any(c.isdigit() for c in s)`. -/
def hasDigitCh (s : String) : Bool :=
  s.toList.any Char.isDigit

/-- Python `pat in s` on strings: substring test. -/
def listContainsSub (pat : List Char) : List Char → Bool
  | [] => pat.isEmpty
  | c :: rest => pat.isPrefixOf (c :: rest) || listContainsSub pat rest

/-- The test `"comment" in t.lower() and any(c.isdigit() for c in t)`. -/
def looksLikeCount (t : String) : Bool :=
  listContainsSub "comment".toList (pyLower t).toList && hasDigitCh t

/-- One `text` node of strategy 5: a dict's `runs` entries are scanned for
a parsable count-looking text, then its `simpleText`; non-dict nodes are
skipped. -/
def strat5item (tf : Json) : Option Int :=
  match tf with
  | .obj _ =>
      let fromRuns :=
        if truthy (jgetD tf "runs" (.arr [])) then
          match jgetD tf "runs" (.arr []) with
          | .arr rs =>
              rs.findSome? (fun r =>
                let t := asString (jgetD r "text" (.str ""))
                if looksLikeCount t then truthyParse t else none)
          | _ => none
        else none
      match fromRuns with
      | some n => some n
      | none =>
          let st := asString (jgetD tf "simpleText" (.str ""))
          if st != "" && looksLikeCount st then truthyParse st else none
  | _ => none

/-- Strategy 5: brute-force scan of every node under a `text` key. -/
def strat5 (data : Json) : Option Int :=
  (searchJson "text" data).findSome? strat5item

/-- The model of `YoutubeCommentDownloader._extract_comment_count`: the five strategies
in strict priority order; `none` models the `return None` of the Python
function when all five fail. -/
def extract_comment_count (data : Json) : Option Int :=
  strat1 data <|> strat2 data <|> strat3 data <|> strat4 data <|> strat5 data

/-! ### CommentExtractor -/

/-- The canonical comment record built at lines 258-268 / 306-316 of
`comments.py`.  Fields the code uses as strings (`cid`, the text, the
votes) are strings here; fields it passes through untouched stay raw. -/
structure Comment where
  cid : String
  text : String
  text_length : Nat
  time : Json
  author : Json
  channel : Json
  votes : String
  replies : Json
  photo : Json
  heart : Bool
  reply : Bool

/-- The comprehension `{payload["key"]: payload for payload in toolbar_payloads}`: building
the toolbar-state mapping; a payload without a `"key"` raises (`none`), in
document order, with later duplicates overriding earlier ones on lookup
(see `pyLookup`). -/
def buildToolbarStates (payloads : List Json) : Option (List (String × Json)) :=
  payloads.mapM (fun p => (idx? p "key").map (fun k => (asString k, p)))

/-- Lookup in a dict built by comprehension: the last binding for a key
wins. -/
def pyLookup (ts : List (String × Json)) (k : String) : Option Json :=
  List.lookup k ts.reverse

/-- The per-comment extraction of lines 252-268 (and the identical
300-316): every `d[k]` lookup is mandatory, and a missing one makes the
whole extraction fail (Python `KeyError`, propagated out of the
generator), never a skipped record. -/
def extractComment (ts : List (String × Json)) (c : Json) : Option Comment :=
  (idx? c "properties").bind fun properties =>
  (idx? properties "commentId").bind fun cidJ =>
  (idx? c "author").bind fun author =>
  (idx? c "toolbar").bind fun toolbar =>
  (idx? properties "toolbarStateKey").bind fun tkey =>
  (pyLookup ts (asString tkey)).bind fun toolbarState =>
  (idx? properties "content").bind fun contentObj =>
  (idx? contentObj "content").bind fun textJ =>
  (idx? properties "publishedTime").bind fun timeJ =>
  (idx? author "displayName").bind fun authorName =>
  (idx? author "channelId").bind fun channelJ =>
  (idx? toolbar "likeCountNotliked").bind fun votesJ =>
  (idx? toolbar "replyCount").bind fun repliesJ =>
  (idx? author "avatarThumbnailUrl").bind fun photoJ =>
  let cid := asString cidJ
  let text := asString textJ
  some { cid := cid
         text := text
         text_length := text.length
         time := timeJ
         author := authorName
         channel := channelJ
         votes := if pyStrip (asString votesJ) == "" then "0" else pyStrip (asString votesJ)
         replies := repliesJ
         photo := photoJ
         heart := asString (jgetD toolbarState "heartState" (.str "")) == "TOOLBAR_HEART_STATE_HEARTED"
         reply := cid.toList.contains '.' }

/-- The ten required field paths of the spec's CommentExtractor (§4.3):
`properties.commentId`, `properties.publishedTime`,
`properties.content.content`, `properties.toolbarStateKey` together with
the toolbar-state lookup it keys, `author.displayName`, `author.channelId`,
`author.avatarThumbnailUrl`, `toolbar.likeCountNotliked`,
`toolbar.replyCount` — all present. -/
def requiredPresent (ts : List (String × Json)) (c : Json) : Bool :=
  ((idx? c "properties").bind (fun p => idx? p "commentId")).isSome &&
  ((idx? c "properties").bind (fun p => idx? p "publishedTime")).isSome &&
  ((idx? c "properties").bind (fun p => (idx? p "content").bind
      (fun ct => idx? ct "content"))).isSome &&
  ((idx? c "properties").bind (fun p => (idx? p "toolbarStateKey").bind
      (fun tk => pyLookup ts (asString tk)))).isSome &&
  ((idx? c "author").bind (fun a => idx? a "displayName")).isSome &&
  ((idx? c "author").bind (fun a => idx? a "channelId")).isSome &&
  ((idx? c "author").bind (fun a => idx? a "avatarThumbnailUrl")).isSome &&
  ((idx? c "toolbar").bind (fun t => idx? t "likeCountNotliked")).isSome &&
  ((idx? c "toolbar").bind (fun t => idx? t "replyCount")).isSome

/-! ### PaginationEngine -/

/-- One observable event of a fully-consumed run of
`get_comments_from_url`: a request handed to the transport, a yielded
total-count marker, a yielded comment, or a fatal error (`RuntimeError` /
`KeyError`) ending the run. -/
inductive Ev where
  | req : Json → Ev
  | marker : Int → Ev
  | yield : Comment → Ev
  | fatalErr : String → Ev

/-- Is this event a yielded item (marker or comment)? -/
def Ev.isItem : Ev → Bool
  | .marker _ => true
  | .yield _ => true
  | _ => false

/-- Is this event the total-count marker? -/
def Ev.isMarker : Ev → Bool
  | .marker _ => true
  | _ => false

/-- Is this event a yielded comment? -/
def Ev.isYield : Ev → Bool
  | .yield _ => true
  | _ => false

/-- Is this event a transport request? -/
def Ev.isReq : Ev → Bool
  | .req _ => true
  | _ => false

/-- Is this event a fatal error? -/
def Ev.isFatal : Ev → Bool
  | .fatalErr _ => true
  | _ => false

/-- Constructor tag of an event (0 = request, 1 = marker, 2 = comment,
3 = fatal error), for stating concrete traces without equality on `Json`. -/
def evTag : Ev → Nat
  | .req _ => 0
  | .marker _ => 1
  | .yield _ => 2
  | .fatalErr _ => 3

/-- The yielded items of a trace, in order. -/
def itemsOf (t : List Ev) : List Ev :=
  t.filter Ev.isItem

/-- String payload of a string node. -/
def strOf : Json → Option String
  | .str s => some s
  | _ => none

/-- The string labels of the endpoints requested during a trace, in order
(test endpoints below are all string nodes). -/
def reqLabels (t : List Ev) : List String :=
  t.filterMap (fun e =>
    match e with
    | .req j => strOf j
    | _ => none)

/-- The check `error = next(search_dict(response, "externalErrorMessage"), None);
if error:` — the first error message found, kept only when truthy. -/
def firstError (resp : Json) : Option Json :=
  match (searchJson "externalErrorMessage" resp).head? with
  | some e => if truthy e then some e else none
  | none => none

/-- The continuation endpoints one action item splices to the front of the
queue (`continuations[:0] = [...]`, lines 240-244 / 288-292): every
`continuationEndpoint` found inside the item, when the action's `targetId`
is one of the three comment-section ids. -/
def itemFrontAdds (tid : String) (item : Json) : List Json :=
  if tid == "comments-section" || tid == "engagement-panel-comments-section" ||
      tid == "shorts-engagement-panel-comments-section" then
    searchJson "continuationEndpoint" item
  else []

/-- The reply-expansion command one action item appends to the back of the
queue (`continuations.append(...)`, lines 245-247 / 293-295): the nested
`buttonRenderer.command`, when the `targetId` starts with
`comment-replies-item` and the item still has an unexpanded
`continuationItemRenderer`. -/
def itemBackAdds (tid : String) (item : Json) : List Json :=
  if "comment-replies-item".toList.isPrefixOf tid.toList &&
      hasKey item "continuationItemRenderer" then
    [jgetD ((searchJson "buttonRenderer" item).headD .null) "command" .null]
  else []

/-- The `(targetId, item)` pairs processed by the action loop:
all `reloadContinuationItemsCommand` then all
`appendContinuationItemsAction` nodes, each contributing its
`continuationItems` in order. -/
def pageActionItems (resp : Json) : List (String × Json) :=
  (searchJson "reloadContinuationItemsCommand" resp ++
    searchJson "appendContinuationItemsAction" resp).flatMap
    (fun action =>
      (asArr (jgetD action "continuationItems" (.arr []))).map
        (fun item => (asString (jgetD action "targetId" .null), item)))

/-- The action loop's net effect on the live continuation queue: per item,
front endpoints are spliced before everything, the reply command is
appended after everything. -/
def processQueueUpdates (resp : Json) (queue : List Json) : List Json :=
  (pageActionItems resp).foldl
    (fun q ti => itemFrontAdds ti.1 ti.2 ++ q ++ itemBackAdds ti.1 ti.2) queue

/-- All front splices of a page, in the order they end up at the front of
the queue (each splice lands before the previous ones). -/
def frontAdds (resp : Json) : List Json :=
  (pageActionItems resp).foldl (fun acc ti => itemFrontAdds ti.1 ti.2 ++ acc) []

/-- All back appends of a page, in append order. -/
def backAdds (resp : Json) : List Json :=
  (pageActionItems resp).flatMap (fun ti => itemBackAdds ti.1 ti.2)

/-- Python `continuations.pop()`: remove and return the last element. -/
def popLast (l : List Json) : Option (List Json × Json) :=
  match l.getLast? with
  | some x => some (l.dropLast, x)
  | none => none

/-- The comment loop of one page: extract each entity in the given
(already reversed) order, yielding until the first extraction error; the
flag records whether a `KeyError` ended the run there. -/
def extractAll (ts : List (String × Json)) : List Json → List Comment × Bool
  | [] => ([], false)
  | c :: rest =>
      match extractComment ts c with
      | none => ([], true)
      | some cm =>
          let p := extractAll ts rest
          (cm :: p.1, p.2)

/-- The events yielded while processing the comments of one response page
(lines 249-271 / 297-319): build the toolbar-state mapping, then yield
every `commentEntityPayload` in reverse discovery order; a `KeyError`
(missing required field, missing toolbar key) becomes a fatal event cutting
the run short. -/
def pageEvents (resp : Json) : List Ev × Bool :=
  match buildToolbarStates (searchJson "engagementToolbarStateEntityPayload" resp) with
  | none => ([.fatalErr "KeyError"], true)
  | some ts =>
      let p := extractAll ts ((searchJson "commentEntityPayload" resp).reverse)
      (p.1.map Ev.yield ++ (if p.2 then [.fatalErr "KeyError"] else []), p.2)

/-- The drain loop of lines 273-319: pop the back of the queue, request it;
a falsy response breaks out of the whole loop; a truthy error message is
fatal; otherwise the queue is updated, the page's comments are yielded,
and the loop continues.  `fuel` bounds the number of iterations (the
Python loop may run unboundedly); out of fuel the modelled trace simply
stops, and every statement below either holds for all fuels or supplies
enough of it. -/
def drainLoop (trans : Nat → Json) : Nat → Nat → List Json → List Ev
  | 0, _, _ => []
  | fuel + 1, k, queue =>
      match popLast queue with
      | none => []
      | some (rest, cont) =>
          let resp := trans k
          if truthy resp then
            match firstError resp with
            | some e =>
                [.req cont, .fatalErr ("Error returned from server: " ++ asString e)]
            | none =>
                let q2 := processQueueUpdates resp rest
                let p := pageEvents resp
                .req cont :: (p.1 ++ (if p.2 then [] else drainLoop trans fuel (k + 1) q2))
          else [.req cont]

/-- Processing of the first (truthy) response, lines 231-271: the error
check, the queue update (the queue is empty at that point: the seed was
just consumed), the page's comments, then the drain loop with the next
request index `k`. -/
def firstPage (trans : Nat → Json) (resp : Json) (fuel k : Nat) : List Ev :=
  match firstError resp with
  | some e => [.fatalErr ("Error returned from server: " ++ asString e)]
  | none =>
      let q2 := processQueueUpdates resp []
      let p := pageEvents resp
      p.1 ++ (if p.2 then [] else drainLoop trans fuel k q2)

/-- The lookup `next(search_dict(data, "sortFilterSubMenuRenderer"), {})
.get("subMenuItems", [])`. -/
def sortMenuOf (data : Json) : Json :=
  jgetD ((searchJson "sortFilterSubMenuRenderer" data).headD (.obj [])) "subMenuItems" (.arr [])

/-- Lines 191-195: a truthy `itemSectionRenderer` containing a truthy
`continuationItemRenderer`; absent, comments are disabled and the run
yields nothing. -/
def hasCommentSection (data : Json) : Bool :=
  match (searchJson "itemSectionRenderer" data).head? with
  | some isec =>
      truthy isec &&
        (match (searchJson "continuationItemRenderer" isec).head? with
         | some r => truthy r
         | none => false)
  | none => false

/-- The community-post retry of lines 198-204: when the initial sort menu
is falsy, one request against the first `continuationEndpoint` of the
`sectionListRenderer` replaces `data` (`{}` when there is none).  Returns
the request events issued, the effective `data`, and the next request
index. -/
def communityPhase (trans : Nat → Json) (data0 : Json) : List Ev × Json × Nat :=
  if truthy (sortMenuOf data0) then ([], data0, 0)
  else
    match (searchJson "continuationEndpoint"
        ((searchJson "sectionListRenderer" data0).headD (.obj []))).head? with
    | some c => ([.req c], trans 0, 1)
    | none => ([], .obj [], 0)

/-- The `data` against which sorting and the total count are resolved
(after the community-post retry, if any). -/
def effectiveData (trans : Nat → Json) (data0 : Json) : Json :=
  (communityPhase trans data0).2.1

/-- The index of the first comment request (0, or 1 after a community-post
retry request). -/
def firstCallIdx (trans : Nat → Json) (data0 : Json) : Nat :=
  (communityPhase trans data0).2.2

/-- The marker `yield {"_total_count": n}` when a count was extracted. -/
def markerEvs : Option Int → List Ev
  | some n => [.marker n]
  | none => []

/-- The model of `YoutubeCommentDownloader.get_comments_from_url`, lines 183-319, from
the point where the initial-data blob `data0` has been extracted (the page
fetch and config extraction are external collaborators).  `trans` answers
the n-th transport request of the run; `fuel` bounds the drain loop. -/
def get_comments_from_url (trans : Nat → Json) (data0 : Json) (sort_by : Nat)
    (fuel : Nat) : List Ev :=
  if hasCommentSection data0 = false then []
  else
    let cp := communityPhase trans data0
    let menuJ := sortMenuOf cp.2.1
    if truthy menuJ = false ∨ (asArr menuJ).length ≤ sort_by then
      cp.1 ++ [.fatalErr "Failed to set sorting"]
    else
      let seed := jgetD ((asArr menuJ).getD sort_by .null) "serviceEndpoint" .null
      let total0 := extract_comment_count cp.2.1
      let resp1 := trans cp.2.2
      if truthy resp1 then
        cp.1 ++ .req seed ::
          (markerEvs (total0 <|> extract_comment_count resp1) ++
            firstPage trans resp1 fuel (cp.2.2 + 1))
      else
        cp.1 ++ .req seed ::
          (markerEvs total0 ++ drainLoop trans fuel (cp.2.2 + 1) [seed])

/-- The seed continuation of a run: the chosen sort-menu entry's
`serviceEndpoint`. -/
def runSeed (trans : Nat → Json) (data0 : Json) (sort_by : Nat) : Json :=
  jgetD ((asArr (sortMenuOf (effectiveData trans data0))).getD sort_by .null)
    "serviceEndpoint" .null

/-! ### Concrete fixtures used by witnesses and counterexamples -/

/-- A minimal initial-data blob: comments enabled, one sort-menu entry
whose `serviceEndpoint` is the string `"seed"`, no count information. -/
def exData : Json := .obj [
  ("itemSectionRenderer", .obj [("continuationItemRenderer", .obj [("x", .str "y")])]),
  ("sortFilterSubMenuRenderer", .obj [("subMenuItems", .arr [
    .obj [("serviceEndpoint", .str "seed")]])])]

/-- A comment entity with every required field present
(`likeCountNotliked` trims to `"5"`, cid without a dot). -/
def exCommentNode : Json := .obj [
  ("properties", .obj [
    ("commentId", .str "abc"),
    ("publishedTime", .str "now"),
    ("content", .obj [("content", .str "hi")]),
    ("toolbarStateKey", .str "k1")]),
  ("author", .obj [
    ("displayName", .str "A"),
    ("channelId", .str "C"),
    ("avatarThumbnailUrl", .str "U")]),
  ("toolbar", .obj [
    ("likeCountNotliked", .str " 5 "),
    ("replyCount", .num 2)])]

/-- The hearted toolbar-state payload of `exCommentNode`. -/
def exToolbarPayload : Json := .obj [
  ("key", .str "k1"), ("heartState", .str "TOOLBAR_HEART_STATE_HEARTED")]

/-- The toolbar-state mapping built from `exToolbarPayload`. -/
def exTs : List (String × Json) := [("k1", exToolbarPayload)]

/-- The comment record extracted from `exCommentNode` under `exTs`. -/
def exCm : Comment :=
  { cid := "abc", text := "hi", text_length := 2, time := .str "now",
    author := .str "A", channel := .str "C", votes := "5", replies := .num 2,
    photo := .str "U", heart := true, reply := false }

/-- A response carrying a falsy (empty) `externalErrorMessage` next to one
perfectly valid comment. -/
def exRespA : Json := .obj [
  ("externalErrorMessage", .str ""),
  ("engagementToolbarStateEntityPayload", exToolbarPayload),
  ("commentEntityPayload", exCommentNode)]

/-- Transport answering `exRespA` to the first request and nothing after. -/
def transA : Nat → Json := fun n =>
  match n with
  | 0 => exRespA
  | _ => .null

/-- A response carrying both an extractable `commentCount` and a truthy
`externalErrorMessage`. -/
def exRespB : Json := .obj [
  ("commentCount", .num 7),
  ("externalErrorMessage", .str "boom")]

/-- Transport answering `exRespB` to the first request and nothing after. -/
def transB : Nat → Json := fun n =>
  match n with
  | 0 => exRespB
  | _ => .null

/-- A first page queueing two reply-expansion continuations (`cmdA` then
`cmdB`) and nothing else. -/
def exPage1 : Json := .obj [
  ("actions", .arr [
    .obj [("appendContinuationItemsAction", .obj [
      ("targetId", .str "comment-replies-item-1"),
      ("continuationItems", .arr [
        .obj [("continuationItemRenderer", .obj [("z", .num 1)]),
              ("buttonRenderer", .obj [("command", .str "cmdA")])]])])],
    .obj [("appendContinuationItemsAction", .obj [
      ("targetId", .str "comment-replies-item-2"),
      ("continuationItems", .arr [
        .obj [("continuationItemRenderer", .obj [("z", .num 1)]),
              ("buttonRenderer", .obj [("command", .str "cmdB")])]])])]])]

/-- Transport answering `exPage1` to the first request and nothing after. -/
def trans4 : Nat → Json := fun n =>
  match n with
  | 0 => exPage1
  | _ => .null

/-- Transport that always returns a falsy response. -/
def transNull : Nat → Json := fun _ => .null

/-- A tree whose only count information is a numeric `commentCount` equal
to `0`. -/
def exC9 : Json := .obj [("commentCount", .num 0)]

/-- A page carrying one comment and one reply-expansion continuation. -/
def exResp5 : Json := .obj [
  ("appendContinuationItemsAction", .obj [
    ("targetId", .str "comment-replies-item-x"),
    ("continuationItems", .arr [
      .obj [("continuationItemRenderer", .obj [("a", .num 1)]),
            ("buttonRenderer", .obj [("command", .str "replyCont")])]])]),
  ("engagementToolbarStateEntityPayload", exToolbarPayload),
  ("commentEntityPayload", exCommentNode)]

/-- Transport answering `exResp5` to the first request and nothing after. -/
def trans5 : Nat → Json := fun n =>
  match n with
  | 0 => exResp5
  | _ => .null

/-! ## Helper lemmas -/

set_option maxRecDepth 40000

theorem popLast_concat (q : List Json) (c : Json) : popLast (q ++ [c]) = some (q, c) := by
  simp [popLast]

theorem truthy_of_search_found (key : String) (j e : Json)
    (h : (searchJson key j).head? = some e) : truthy j = true := by
  cases j with
  | obj kvs =>
      cases kvs with
      | nil => simp [searchJson, searchKvs] at h
      | cons p rest => simp [truthy]
  | arr xs =>
      cases xs with
      | nil => simp [searchJson, searchArr] at h
      | cons v rest => simp [truthy]
  | str s => simp [searchJson] at h
  | num q => simp [searchJson] at h
  | bool b => simp [searchJson] at h
  | null => simp [searchJson] at h

theorem firstError_of_truthy_found (resp e : Json)
    (hfound : (searchJson "externalErrorMessage" resp).head? = some e)
    (htruthy : truthy e = true) : firstError resp = some e := by
  simp [firstError, hfound, htruthy]

theorem foldl_prepend_out (f : (String × Json) → List Json) :
    ∀ (l : List (String × Json)) (i : List Json),
      l.foldl (fun acc ti => f ti ++ acc) i = l.foldl (fun acc ti => f ti ++ acc) [] ++ i := by
  intro l
  induction l with
  | nil => intro i; simp
  | cons x l ih =>
      intro i
      simp only [List.foldl_cons]
      rw [ih (f x ++ i), ih (f x ++ [])]
      simp [List.append_assoc]

theorem processQueueUpdates_split :
    ∀ (l : List (String × Json)) (q : List Json),
      l.foldl (fun acc ti => itemFrontAdds ti.1 ti.2 ++ acc ++ itemBackAdds ti.1 ti.2) q =
        l.foldl (fun acc ti => itemFrontAdds ti.1 ti.2 ++ acc) [] ++ q ++
          l.flatMap (fun ti => itemBackAdds ti.1 ti.2) := by
  intro l
  induction l with
  | nil => intro q; simp
  | cons x l ih =>
      intro q
      simp only [List.foldl_cons, List.flatMap_cons]
      rw [ih, foldl_prepend_out (fun ti => itemFrontAdds ti.1 ti.2) l (itemFrontAdds x.1 x.2 ++ [])]
      simp [List.append_assoc]

/-! ## Claims -/

/-- C2: `parse_count` (`_parse_comment_count`) maps the literal inputs
exactly as specified: `"28,999"` to 28999, `"28.9K"` to 28900, `"1.2M"` to
1200000, and returns the unknown/failure result (`None`) for `""` and for
`"Comments"`. -/
theorem parse_count_literal_examples :
    parse_comment_count "28,999" = some 28999 ∧
    parse_comment_count "28.9K" = some 28900 ∧
    parse_comment_count "1.2M" = some 1200000 ∧
    parse_comment_count "" = none ∧
    parse_comment_count "Comments" = none :=
  ⟨rfl, rfl, rfl, rfl, rfl⟩

/-- C6: the continuation queue obeys the mixed push discipline in every
cycle.  Conjunct 1: the action loop turns the queue into (front splices of
qualifying comment-section `targetId`s) ++ (old queue) ++ (back-appended
reply-expansion commands) — see `itemFrontAdds` and `itemBackAdds` for the
respective conditions.  Conjunct 2: `continuations.pop()` removes the back
element.  Conjunct 3: every remaining drain cycle requests the back
element of the queue first. -/
theorem queue_mixed_push_discipline :
    (∀ (resp : Json) (queue : List Json),
      processQueueUpdates resp queue = frontAdds resp ++ queue ++ backAdds resp)
    ∧ (∀ (q : List Json) (c : Json), popLast (q ++ [c]) = some (q, c))
    ∧ (∀ (trans : Nat → Json) (fuel k : Nat) (q : List Json) (c : Json),
        (drainLoop trans (fuel + 1) k (q ++ [c])).head? = some (.req c)) := by
  refine ⟨?_, popLast_concat, ?_⟩
  · intro resp queue
    exact processQueueUpdates_split (pageActionItems resp) queue
  · intro trans fuel k q c
    simp only [drainLoop, popLast_concat]
    split
    · split <;> rfl
    · rfl

/-- C4 counterexample: after the first page queues the two reply
continuations `cmdA` and `cmdB`, the falsy response to the `cmdB` request
ends the whole run — only two requests ever happen, no error is raised,
and `cmdA` (still in the queue) is never requested, contradicting
"remaining continuations in the queue are still requested". -/
theorem empty_response_counterexample :
    (processQueueUpdates exPage1 []).filterMap strOf = ["cmdA", "cmdB"]
    ∧ reqLabels (get_comments_from_url trans4 exData 0 5) = ["seed", "cmdB"]
    ∧ (get_comments_from_url trans4 exData 0 5).map evTag = [0, 0] :=
  ⟨rfl, rfl, rfl⟩

/-- C4 (amended): for every continuation popped during the drain loop, if
the transport returns an empty/falsy response, the engine terminates the
entire drain loop gracefully (no error event): remaining continuations in
the queue are not requested. -/
theorem empty_response_ends_drain (trans : Nat → Json) (fuel k : Nat)
    (q rest : List Json) (cont : Json)
    (hpop : popLast q = some (rest, cont))
    (hfalsy : truthy (trans k) = false) :
    drainLoop trans (fuel + 1) k q = [.req cont] := by
  simp [drainLoop, hpop, hfalsy]

theorem empty_response_ends_drain_witness :
    drainLoop trans4 3 1 [.str "cmdA", .str "cmdB"] = [.req (.str "cmdB")] :=
  empty_response_ends_drain trans4 2 1 [.str "cmdA", .str "cmdB"] [.str "cmdA"]
    (.str "cmdB") rfl rfl

/-- C3 counterexample: `exRespA` contains an `externalErrorMessage` node
(a falsy, empty one) yet the run raises nothing and yields one comment
(trace tags: request, comment); `exRespB` contains a truthy
`externalErrorMessage` and an extractable count, and the run emits the
total-count marker before the fatal error propagates (trace tags: request,
marker, fatal) — both contradicting "raises a fatal error and yields no
items, no marker is emitted before the error propagates". -/
theorem external_error_counterexample :
    (searchJson "externalErrorMessage" exRespA).length = 1
    ∧ (get_comments_from_url transA exData 0 5).map evTag = [0, 2]
    ∧ (searchJson "externalErrorMessage" exRespB).length = 1
    ∧ (get_comments_from_url transB exData 0 5).map evTag = [0, 1, 3] :=
  ⟨rfl, rfl, rfl, rfl⟩

/-- C3 (amended): for every response whose first-found
`externalErrorMessage` is truthy (non-empty), the engine raises a fatal
error carrying that message and emits no comment from that response,
whether it is the first response or a drain-loop one; items emitted
earlier in the run (in particular the total-count marker) may precede the
error. -/
theorem external_error_fatal (resp e : Json)
    (hfound : (searchJson "externalErrorMessage" resp).head? = some e)
    (htruthy : truthy e = true) :
    (∀ (trans : Nat → Json) (fuel k : Nat),
      firstPage trans resp fuel k =
        [.fatalErr ("Error returned from server: " ++ asString e)])
    ∧ (∀ (trans : Nat → Json) (fuel k : Nat) (q rest : List Json) (cont : Json),
        popLast q = some (rest, cont) → trans k = resp →
        drainLoop trans (fuel + 1) k q =
          [.req cont, .fatalErr ("Error returned from server: " ++ asString e)]) := by
  have herr : firstError resp = some e := firstError_of_truthy_found resp e hfound htruthy
  have htr : truthy resp = true := truthy_of_search_found _ _ _ hfound
  refine ⟨?_, ?_⟩
  · intro trans fuel k
    simp [firstPage, herr]
  · intro trans fuel k q rest cont hpop hk
    simp [drainLoop, hpop, hk, htr, herr]

theorem external_error_fatal_witness :
    firstPage transNull exRespB 3 1 =
      [.fatalErr ("Error returned from server: " ++ asString (.str "boom"))] :=
  (external_error_fatal exRespB (.str "boom") rfl rfl).1 transNull 3 1

/-- C9 counterexample: on the tree `{"commentCount": 0}` strategies 1-3
fail and the first `commentCount` found is the number `0`, yet the
extractor returns the unknown result instead of accepting `int(0) = 0`
directly: the `if comment_count:` truthiness guard skips falsy numerics,
contradicting "accepted directly ... and returned". -/
theorem comment_count_zero_counterexample :
    (searchJson "commentCount" exC9).head? = some (.num 0)
    ∧ strat1 exC9 = none ∧ strat2 exC9 = none ∧ strat3 exC9 = none
    ∧ extract_comment_count exC9 = none :=
  ⟨rfl, rfl, rfl, rfl, rfl⟩

/-- C9 (amended): in `_extract_comment_count`'s fourth strategy, on every
input tree on which strategies 1-3 fail, a first-found `commentCount` that
is numeric and nonzero (truthy) is accepted directly — truncated to an
integer and returned, without string parsing and without falling through
to the fifth strategy; a first-found non-empty string is parsed via
`parse_count` instead, and a truthy parse result is returned. -/
theorem comment_count_strategy4 (data : Json)
    (h1 : strat1 data = none) (h2 : strat2 data = none) (h3 : strat3 data = none) :
    (∀ q : ℚ, (searchJson "commentCount" data).head? = some (.num q) → q ≠ 0 →
      extract_comment_count data = some (pyInt q))
    ∧ (∀ (s : String) (n : Int),
        (searchJson "commentCount" data).head? = some (.str s) → s ≠ "" →
        truthyParse s = some n → extract_comment_count data = some n) := by
  constructor
  · intro q hq hq0
    simp [extract_comment_count, h1, h2, h3, strat4, hq, truthy, hq0]
  · intro s n hs hs0 hp
    simp [extract_comment_count, h1, h2, h3, strat4, hs, truthy, hs0, hp]

theorem comment_count_strategy4_witness :
    extract_comment_count exRespB = some (pyInt 7) :=
  (comment_count_strategy4 exRespB rfl rfl rfl).1 7 rfl (by norm_num)

theorem lookup_none_of_any_false (k : String) :
    ∀ (l : List (String × Json)), l.any (fun p => p.1 == k) = false →
      List.lookup k l = none := by
  intro l
  induction l with
  | nil => intro _; rfl
  | cons p rest ih =>
      obtain ⟨a, b⟩ := p
      intro h
      simp only [List.any_cons, Bool.or_eq_false_iff] at h
      have hk : (k == a) = false := by
        have h1 := h.1
        simp only [beq_eq_false_iff_ne] at h1 ⊢
        exact fun hkeq => h1 hkeq.symm
      simp only [List.lookup, hk]
      exact ih h.2

theorem idx?_none_of_hasKey_false (j : Json) (k : String)
    (h : hasKey j k = false) : idx? j k = none := by
  cases j with
  | obj kvs =>
      simp only [hasKey] at h
      refine lookup_none_of_any_false k kvs.reverse ?_
      rw [List.any_reverse]
      exact h
  | arr xs => rfl
  | str s => rfl
  | num q => rfl
  | bool b => rfl
  | null => rfl

/-- C8: for every comment entity node, extraction succeeds exactly when
every required field path of the spec's list is present (see
`requiredPresent`); when one is missing, the record is not silently
skipped: the whole comment loop of the page stops with the error
(`extractAll` yields nothing more and reports the failure). -/
theorem comment_required_fields (ts : List (String × Json)) (c : Json) :
    ((extractComment ts c).isSome = requiredPresent ts c)
    ∧ ∀ (rest : List Json), extractComment ts c = none →
        extractAll ts (c :: rest) = ([], true) := by
  constructor
  · unfold extractComment requiredPresent
    cases h1 : idx? c "properties" with
    | none =>
        repeat rw [Option.none_bind]
        simp only [Option.isSome_none, Bool.false_and]
    | some props =>
        repeat rw [Option.some_bind]
        cases h2 : idx? props "commentId" with
        | none =>
            repeat rw [Option.none_bind]
            simp only [Option.isSome_none, Bool.false_and]
        | some cid =>
            repeat rw [Option.some_bind]
            cases h3 : idx? c "author" with
            | none =>
                repeat rw [Option.none_bind]
                simp only [Option.isSome_none, Option.isSome_some, Bool.false_and,
                  Bool.and_false, Bool.true_and, Bool.and_true]
            | some author =>
                repeat rw [Option.some_bind]
                cases h4 : idx? c "toolbar" with
                | none =>
                    repeat rw [Option.none_bind]
                    simp only [Option.isSome_none, Option.isSome_some, Bool.false_and,
                      Bool.and_false, Bool.true_and, Bool.and_true]
                | some toolbar =>
                    repeat rw [Option.some_bind]
                    cases h5 : idx? props "toolbarStateKey" with
                    | none =>
                        repeat rw [Option.none_bind]
                        simp only [Option.isSome_none, Option.isSome_some, Bool.false_and,
                          Bool.and_false, Bool.true_and, Bool.and_true]
                    | some tk =>
                        repeat rw [Option.some_bind]
                        cases h6 : pyLookup ts (asString tk) with
                        | none =>
                            repeat rw [Option.none_bind]
                            simp only [Option.isSome_none, Option.isSome_some,
                              Bool.false_and, Bool.and_false, Bool.true_and, Bool.and_true]
                        | some tstate =>
                            repeat rw [Option.some_bind]
                            cases h7 : idx? props "content" with
                            | none =>
                                repeat rw [Option.none_bind]
                                simp only [Option.isSome_none, Option.isSome_some,
                                  Bool.false_and, Bool.and_false, Bool.true_and,
                                  Bool.and_true]
                            | some ct =>
                                repeat rw [Option.some_bind]
                                cases h8 : idx? ct "content" with
                                | none =>
                                    repeat rw [Option.none_bind]
                                    simp only [Option.isSome_none, Option.isSome_some,
                                      Bool.false_and, Bool.and_false, Bool.true_and,
                                      Bool.and_true]
                                | some textJ =>
                                    repeat rw [Option.some_bind]
                                    cases h9 : idx? props "publishedTime" with
                                    | none =>
                                        repeat rw [Option.none_bind]
                                        simp only [Option.isSome_none, Option.isSome_some,
                                          Bool.false_and, Bool.and_false, Bool.true_and,
                                          Bool.and_true]
                                    | some timeJ =>
                                        repeat rw [Option.some_bind]
                                        cases h10 : idx? author "displayName" with
                                        | none =>
                                            repeat rw [Option.none_bind]
                                            simp only [Option.isSome_none, Option.isSome_some,
                                              Bool.false_and, Bool.and_false, Bool.true_and,
                                              Bool.and_true]
                                        | some an =>
                                            repeat rw [Option.some_bind]
                                            cases h11 : idx? author "channelId" with
                                            | none =>
                                                repeat rw [Option.none_bind]
                                                simp only [Option.isSome_none,
                                                  Option.isSome_some, Bool.false_and,
                                                  Bool.and_false, Bool.true_and, Bool.and_true]
                                            | some ch =>
                                                repeat rw [Option.some_bind]
                                                cases h12 : idx? toolbar "likeCountNotliked" with
                                                | none =>
                                                    repeat rw [Option.none_bind]
                                                    simp only [Option.isSome_none,
                                                      Option.isSome_some, Bool.false_and,
                                                      Bool.and_false, Bool.true_and,
                                                      Bool.and_true]
                                                | some v =>
                                                    repeat rw [Option.some_bind]
                                                    cases h13 : idx? toolbar "replyCount" with
                                                    | none =>
                                                        repeat rw [Option.none_bind]
                                                        simp only [Option.isSome_none,
                                                          Option.isSome_some, Bool.false_and,
                                                          Bool.and_false, Bool.true_and,
                                                          Bool.and_true]
                                                    | some rc =>
                                                        repeat rw [Option.some_bind]
                                                        cases h14 : idx? author "avatarThumbnailUrl" with
                                                        | none =>
                                                            repeat rw [Option.none_bind]
                                                            simp only [Option.isSome_none,
                                                              Option.isSome_some, Bool.false_and,
                                                              Bool.and_false, Bool.true_and,
                                                              Bool.and_true]
                                                        | some ph =>
                                                            repeat rw [Option.some_bind]
                                                            simp only [Option.isSome_some,
                                                              Bool.true_and, Bool.and_true]
  · intro rest h
    simp only [extractAll, h]

theorem comment_required_fields_witness :
    ((extractComment [] (.obj [])).isSome = requiredPresent [] (.obj []))
    ∧ extractAll [] [.obj []] = ([], true) :=
  ⟨(comment_required_fields [] (.obj [])).1,
   (comment_required_fields [] (.obj [])).2 [] rfl⟩

/-- C7: for every comment entity with all required fields present, the
produced record satisfies: `text_length` is the character length of the
extracted text; `reply` holds exactly when the cid contains a `'.'`;
`heart` holds exactly when the looked-up toolbar state's `heartState`
equals the sentinel hearted value (and is false when `heartState` is
absent); `votes` is the trimmed `likeCountNotliked` string, defaulting to
`"0"` when empty after trimming. -/
theorem comment_derived_fields (ts : List (String × Json)) (c : Json) (cm : Comment)
    (h : extractComment ts c = some cm) :
    cm.text_length = cm.text.length
    ∧ cm.reply = cm.cid.toList.contains '.'
    ∧ (∀ props tk tstate, idx? c "properties" = some props →
        idx? props "toolbarStateKey" = some tk →
        pyLookup ts (asString tk) = some tstate →
        cm.heart = (asString (jgetD tstate "heartState" (.str "")) ==
            "TOOLBAR_HEART_STATE_HEARTED")
        ∧ (hasKey tstate "heartState" = false → cm.heart = false))
    ∧ (∀ toolbar v, idx? c "toolbar" = some toolbar →
        idx? toolbar "likeCountNotliked" = some v →
        cm.votes = if pyStrip (asString v) == "" then "0" else pyStrip (asString v)) := by
  unfold extractComment at h
  cases h1 : idx? c "properties" with
  | none => rw [h1, Option.none_bind] at h; exact absurd h (by simp)
  | some props =>
  rw [h1, Option.some_bind] at h
  cases h2 : idx? props "commentId" with
  | none => rw [h2, Option.none_bind] at h; exact absurd h (by simp)
  | some cidJ =>
  rw [h2, Option.some_bind] at h
  cases h3 : idx? c "author" with
  | none => rw [h3, Option.none_bind] at h; exact absurd h (by simp)
  | some author =>
  rw [h3, Option.some_bind] at h
  cases h4 : idx? c "toolbar" with
  | none => rw [h4, Option.none_bind] at h; exact absurd h (by simp)
  | some toolbar =>
  rw [h4, Option.some_bind] at h
  cases h5 : idx? props "toolbarStateKey" with
  | none => rw [h5, Option.none_bind] at h; exact absurd h (by simp)
  | some tk =>
  rw [h5, Option.some_bind] at h
  cases h6 : pyLookup ts (asString tk) with
  | none => rw [h6, Option.none_bind] at h; exact absurd h (by simp)
  | some tstate =>
  rw [h6, Option.some_bind] at h
  cases h7 : idx? props "content" with
  | none => rw [h7, Option.none_bind] at h; exact absurd h (by simp)
  | some ct =>
  rw [h7, Option.some_bind] at h
  cases h8 : idx? ct "content" with
  | none => rw [h8, Option.none_bind] at h; exact absurd h (by simp)
  | some textJ =>
  rw [h8, Option.some_bind] at h
  cases h9 : idx? props "publishedTime" with
  | none => rw [h9, Option.none_bind] at h; exact absurd h (by simp)
  | some timeJ =>
  rw [h9, Option.some_bind] at h
  cases h10 : idx? author "displayName" with
  | none => rw [h10, Option.none_bind] at h; exact absurd h (by simp)
  | some an =>
  rw [h10, Option.some_bind] at h
  cases h11 : idx? author "channelId" with
  | none => rw [h11, Option.none_bind] at h; exact absurd h (by simp)
  | some ch =>
  rw [h11, Option.some_bind] at h
  cases h12 : idx? toolbar "likeCountNotliked" with
  | none => rw [h12, Option.none_bind] at h; exact absurd h (by simp)
  | some v0 =>
  rw [h12, Option.some_bind] at h
  cases h13 : idx? toolbar "replyCount" with
  | none => rw [h13, Option.none_bind] at h; exact absurd h (by simp)
  | some rc =>
  rw [h13, Option.some_bind] at h
  cases h14 : idx? author "avatarThumbnailUrl" with
  | none => rw [h14, Option.none_bind] at h; exact absurd h (by simp)
  | some ph =>
  rw [h14, Option.some_bind] at h
  rw [Option.some.injEq] at h
  subst h
  refine ⟨rfl, rfl, ?_, ?_⟩
  · intro props' tk' tstate' hp ht hl
    have hpp : props = props' := Option.some.inj hp
    subst hpp
    have htt : tk = tk' := Option.some.inj (h5.symm.trans ht)
    subst htt
    have hll : tstate = tstate' := Option.some.inj (h6.symm.trans hl)
    subst hll
    refine ⟨rfl, ?_⟩
    intro hk
    have h0 := idx?_none_of_hasKey_false tstate "heartState" hk
    show (asString (jgetD tstate "heartState" (.str "")) ==
      "TOOLBAR_HEART_STATE_HEARTED") = false
    rw [jgetD, h0]
    rfl
  · intro toolbar' v hp hv
    have hpp : toolbar = toolbar' := Option.some.inj hp
    subst hpp
    have hvv : v0 = v := Option.some.inj (h12.symm.trans hv)
    subst hvv
    rfl

theorem comment_derived_fields_witness :
    exCm.text_length = exCm.text.length
    ∧ exCm.reply = exCm.cid.toList.contains '.'
    ∧ exCm.heart = (asString (jgetD exToolbarPayload "heartState" (.str "")) ==
        "TOOLBAR_HEART_STATE_HEARTED")
    ∧ exCm.votes = (if pyStrip (asString (.str " 5 ")) == "" then "0"
        else pyStrip (asString (.str " 5 "))) := by
  have h := comment_derived_fields exTs exCommentNode exCm rfl
  exact ⟨h.1, h.2.1, (h.2.2.1 _ _ _ rfl rfl rfl).1, h.2.2.2 _ _ rfl rfl⟩

theorem pageEvents_no_marker (resp : Json) :
    ∀ e ∈ (pageEvents resp).1, e.isMarker = false := by
  unfold pageEvents
  cases buildToolbarStates (searchJson "engagementToolbarStateEntityPayload" resp) with
  | none =>
      intro e he
      simp only [List.mem_singleton] at he
      subst he; rfl
  | some ts =>
      dsimp only
      intro e he
      simp only [List.mem_append, List.mem_map] at he
      rcases he with ⟨cmt, _, rfl⟩ | he
      · rfl
      · split at he
        · simp only [List.mem_singleton] at he; subst he; rfl
        · simp at he

theorem drainLoop_no_marker (trans : Nat → Json) :
    ∀ (fuel k : Nat) (queue : List Json), ∀ e ∈ drainLoop trans fuel k queue,
      e.isMarker = false := by
  intro fuel
  induction fuel with
  | zero =>
      intro k queue e he
      simp [drainLoop] at he
  | succ n ih =>
      intro k queue
      simp only [drainLoop]
      cases popLast queue with
      | none => intro e he; simp at he
      | some rc =>
          obtain ⟨rest, cont⟩ := rc
          dsimp only
          by_cases ht : truthy (trans k) = true
          · rw [if_pos ht]
            cases firstError (trans k) with
            | some err =>
                intro e he
                simp only [List.mem_cons, List.not_mem_nil, or_false] at he
                rcases he with rfl | rfl <;> rfl
            | none =>
                dsimp only
                intro e he
                simp only [List.mem_cons, List.mem_append] at he
                rcases he with rfl | hpe | he
                · rfl
                · exact pageEvents_no_marker _ e hpe
                · split at he
                  · simp at he
                  · exact ih (k + 1) _ e he
          · rw [if_neg ht]
            intro e he
            simp only [List.mem_singleton] at he
            subst he; rfl

theorem firstPage_no_marker (trans : Nat → Json) (resp : Json) (fuel k : Nat) :
    ∀ e ∈ firstPage trans resp fuel k, e.isMarker = false := by
  unfold firstPage
  cases firstError resp with
  | some err =>
      intro e he
      simp only [List.mem_singleton] at he
      subst he; rfl
  | none =>
      dsimp only
      intro e he
      simp only [List.mem_append] at he
      rcases he with hpe | he
      · exact pageEvents_no_marker resp e hpe
      · split at he
        · simp at he
        · exact drainLoop_no_marker trans fuel k _ e he

theorem communityPhase_pre_no_item (trans : Nat → Json) (d : Json) :
    ∀ e ∈ (communityPhase trans d).1, e.isItem = false := by
  unfold communityPhase
  split
  · intro e he; simp at he
  · split
    · intro e he
      simp only [List.mem_singleton] at he
      subst he; rfl
    · intro e he; simp at he

theorem itemsOf_append (a b : List Ev) : itemsOf (a ++ b) = itemsOf a ++ itemsOf b :=
  List.filter_append a b

theorem itemsOf_of_no_item (l : List Ev) (h : ∀ e ∈ l, e.isItem = false) :
    itemsOf l = [] := by
  unfold itemsOf
  rw [List.filter_eq_nil_iff]
  intro e he
  simp [h e he]

theorem run_eq_disabled (trans : Nat → Json) (data0 : Json) (sort_by fuel : Nat)
    (h : hasCommentSection data0 = false) :
    get_comments_from_url trans data0 sort_by fuel = [] := by
  simp [get_comments_from_url, h]

theorem run_eq_sortfail (trans : Nat → Json) (data0 : Json) (sort_by fuel : Nat)
    (h : hasCommentSection data0 = true)
    (h2 : truthy (sortMenuOf (effectiveData trans data0)) = false ∨
      (asArr (sortMenuOf (effectiveData trans data0))).length ≤ sort_by) :
    get_comments_from_url trans data0 sort_by fuel =
      (communityPhase trans data0).1 ++ [.fatalErr "Failed to set sorting"] := by
  unfold effectiveData at h2
  simp [get_comments_from_url, h, h2]

theorem run_eq_truthy (trans : Nat → Json) (data0 : Json) (sort_by fuel : Nat)
    (h : hasCommentSection data0 = true)
    (h2 : ¬(truthy (sortMenuOf (effectiveData trans data0)) = false ∨
      (asArr (sortMenuOf (effectiveData trans data0))).length ≤ sort_by))
    (h3 : truthy (trans (firstCallIdx trans data0)) = true) :
    get_comments_from_url trans data0 sort_by fuel =
      (communityPhase trans data0).1 ++ .req (runSeed trans data0 sort_by) ::
        (markerEvs (extract_comment_count (effectiveData trans data0) <|>
            extract_comment_count (trans (firstCallIdx trans data0))) ++
          firstPage trans (trans (firstCallIdx trans data0)) fuel
            (firstCallIdx trans data0 + 1)) := by
  unfold effectiveData at h2
  unfold firstCallIdx at h3
  unfold get_comments_from_url runSeed effectiveData firstCallIdx
  simp [h, h2, h3]

theorem run_eq_falsy (trans : Nat → Json) (data0 : Json) (sort_by fuel : Nat)
    (h : hasCommentSection data0 = true)
    (h2 : ¬(truthy (sortMenuOf (effectiveData trans data0)) = false ∨
      (asArr (sortMenuOf (effectiveData trans data0))).length ≤ sort_by))
    (h3 : truthy (trans (firstCallIdx trans data0)) = false) :
    get_comments_from_url trans data0 sort_by fuel =
      (communityPhase trans data0).1 ++ .req (runSeed trans data0 sort_by) ::
        (markerEvs (extract_comment_count (effectiveData trans data0)) ++
          drainLoop trans fuel (firstCallIdx trans data0 + 1)
            [runSeed trans data0 sort_by]) := by
  unfold effectiveData at h2
  unfold firstCallIdx at h3
  unfold get_comments_from_url runSeed effectiveData firstCallIdx
  simp [h, h2, h3]


theorem run_items_shape (trans : Nat → Json) (data0 : Json) (sort_by fuel : Nat) :
    ∃ (t : Option Int) (rest : List Ev),
      itemsOf (get_comments_from_url trans data0 sort_by fuel) = markerEvs t ++ rest
      ∧ (∀ e ∈ rest, e.isMarker = false)
      ∧ (extract_comment_count (effectiveData trans data0) = none →
         extract_comment_count (trans (firstCallIdx trans data0)) = none → t = none) := by
  have hpre : itemsOf (communityPhase trans data0).1 = [] :=
    itemsOf_of_no_item _ (communityPhase_pre_no_item trans data0)
  by_cases hcs : hasCommentSection data0 = true
  · by_cases hsort : (truthy (sortMenuOf (effectiveData trans data0)) = false ∨
        (asArr (sortMenuOf (effectiveData trans data0))).length ≤ sort_by)
    · refine ⟨none, [], ?_, by simp, fun _ _ => rfl⟩
      rw [run_eq_sortfail trans data0 sort_by fuel hcs hsort, itemsOf_append, hpre]
      rfl
    · by_cases hresp : truthy (trans (firstCallIdx trans data0)) = true
      · refine ⟨extract_comment_count (effectiveData trans data0) <|>
            extract_comment_count (trans (firstCallIdx trans data0)),
          itemsOf (firstPage trans (trans (firstCallIdx trans data0)) fuel
            (firstCallIdx trans data0 + 1)), ?_, ?_, ?_⟩
        · rw [run_eq_truthy trans data0 sort_by fuel hcs hsort hresp, itemsOf_append, hpre]
          show itemsOf (Ev.req (runSeed trans data0 sort_by) :: (markerEvs _ ++ _)) = _
          unfold itemsOf
          rw [List.filter_cons_of_neg (by simp [Ev.isItem]), List.filter_append]
          congr 1
          cases extract_comment_count (effectiveData trans data0) <|>
              extract_comment_count (trans (firstCallIdx trans data0)) <;> rfl
        · intro e he
          unfold itemsOf at he
          exact firstPage_no_marker _ _ _ _ e (List.mem_of_mem_filter he)
        · intro ha hb
          rw [ha, hb]
          rfl
      · rw [Bool.not_eq_true] at hresp
        refine ⟨extract_comment_count (effectiveData trans data0),
          itemsOf (drainLoop trans fuel (firstCallIdx trans data0 + 1)
            [runSeed trans data0 sort_by]), ?_, ?_, ?_⟩
        · rw [run_eq_falsy trans data0 sort_by fuel hcs hsort hresp, itemsOf_append, hpre]
          show itemsOf (Ev.req (runSeed trans data0 sort_by) :: (markerEvs _ ++ _)) = _
          unfold itemsOf
          rw [List.filter_cons_of_neg (by simp [Ev.isItem]), List.filter_append]
          congr 1
          cases extract_comment_count (effectiveData trans data0) <;> rfl
        · intro e he
          unfold itemsOf at he
          exact drainLoop_no_marker trans fuel _ _ e (List.mem_of_mem_filter he)
        · intro ha _
          exact ha
  · rw [Bool.not_eq_true] at hcs
    refine ⟨none, [], ?_, by simp, fun _ _ => rfl⟩
    rw [run_eq_disabled trans data0 sort_by fuel hcs]
    rfl

/-- C1: in every run, the total-count marker is emitted at most once and,
when emitted, strictly before every comment (no item after the first is a
marker); and when no extraction strategy succeeds on either the effective
initial data or the first response, no marker is emitted at all and the
item stream consists of comments only. -/
theorem marker_at_most_once_and_first (trans : Nat → Json) (data0 : Json)
    (sort_by fuel : Nat) :
    ((itemsOf (get_comments_from_url trans data0 sort_by fuel)).tail.all
      (fun e => !e.isMarker)) = true
    ∧ (extract_comment_count (effectiveData trans data0) = none →
       extract_comment_count (trans (firstCallIdx trans data0)) = none →
       ((itemsOf (get_comments_from_url trans data0 sort_by fuel)).all
         (fun e => !e.isMarker)) = true) := by
  obtain ⟨t, rest, heq, hrest, ht⟩ := run_items_shape trans data0 sort_by fuel
  constructor
  · rw [heq]
    cases t with
    | none =>
        simp only [markerEvs, List.nil_append]
        rw [List.all_eq_true]
        intro e he
        have := hrest e (List.mem_of_mem_tail he)
        simp [this]
    | some n =>
        simp only [markerEvs, List.cons_append, List.tail_cons, List.nil_append]
        rw [List.all_eq_true]
        intro e he
        have := hrest e he
        simp [this]
  · intro ha hb
    rw [heq, ht ha hb]
    simp only [markerEvs, List.nil_append]
    rw [List.all_eq_true]
    intro e he
    have := hrest e he
    simp [this]

theorem marker_at_most_once_and_first_witness :
    ((itemsOf (get_comments_from_url transNull exData 0 2)).all
      (fun e => !e.isMarker)) = true :=
  (marker_at_most_once_and_first transNull exData 0 2).2 rfl rfl


/-- C5: for every processed response page (whose comment extraction
succeeds), all `commentEntityPayload` nodes discovered in it are yielded
as comment records in the reverse of their discovery order (`cs` comes
from `extractAll` on the reversed discovery list), and all of them are
yielded before the engine issues any further request: the page's events
are the yields (never requests), and the next request can only occur
inside the subsequent drain-loop call.  This covers both the first page
(`firstPage`) and every drain-loop page. -/
theorem page_yields_precede_requests
    (trans : Nat → Json) (fuel k : Nat) (resp : Json)
    (ts : List (String × Json)) (cs : List Comment)
    (hresp : truthy resp = true)
    (herr : firstError resp = none)
    (hts : buildToolbarStates (searchJson "engagementToolbarStateEntityPayload" resp) = some ts)
    (hex : extractAll ts ((searchJson "commentEntityPayload" resp).reverse) = (cs, false)) :
    (∀ e ∈ cs.map Ev.yield, e.isReq = false)
    ∧ firstPage trans resp fuel k =
        cs.map Ev.yield ++ drainLoop trans fuel k (processQueueUpdates resp [])
    ∧ (∀ (q : List Json) (cont : Json), trans k = resp →
        drainLoop trans (fuel + 1) k (q ++ [cont]) =
          .req cont :: (cs.map Ev.yield ++
            drainLoop trans fuel (k + 1) (processQueueUpdates resp q))) := by
  have hpe : pageEvents resp = (cs.map Ev.yield, false) := by
    unfold pageEvents
    rw [hts]
    dsimp only
    rw [hex]
    simp
  refine ⟨?_, ?_, ?_⟩
  · intro e he
    simp only [List.mem_map] at he
    obtain ⟨cmt, _, rfl⟩ := he
    rfl
  · unfold firstPage
    rw [herr]
    dsimp only
    rw [hpe]
    simp
  · intro q cont hk
    have hpop := popLast_concat q cont
    simp only [drainLoop, hpop]
    rw [hk]
    simp [hresp, herr, hpe]

theorem page_yields_precede_requests_witness :
    drainLoop trans5 3 0 ([] ++ [.str "c0"]) =
      .req (.str "c0") :: ([exCm].map Ev.yield ++
        drainLoop trans5 2 1 (processQueueUpdates exResp5 [])) :=
  (page_yields_precede_requests trans5 2 0 exResp5 exTs [exCm] rfl rfl rfl rfl).2.2
    [] (.str "c0") rfl

theorem drainLoop_stops_on_falsy (trans : Nat → Json) (fuel k : Nat) (c : Json)
    (h : truthy (trans k) = false) :
    drainLoop trans (fuel + 1) k [c] = [.req c] := by
  have hp := popLast_concat [] c
  simp only [List.nil_append] at hp
  simp [drainLoop, hp, h]

theorem communityPhase_skip (trans : Nat → Json) (data0 : Json)
    (h : truthy (sortMenuOf data0) = true) :
    communityPhase trans data0 = ([], data0, 0) := by
  simp [communityPhase, h]

/-- C10: if the transport returns an empty/falsy result for the initial
seed request, the run does not end there: the same seed continuation
remains in the queue and is requested a second time in the drain loop, so
the seed endpoint is sent to the transport twice in one run. -/
theorem seed_requested_twice (trans : Nat → Json) (data0 : Json) (sort_by fuel : Nat)
    (hcs : hasCommentSection data0 = true)
    (hmenu : truthy (sortMenuOf data0) = true)
    (hlen : sort_by < (asArr (sortMenuOf data0)).length)
    (h0 : truthy (trans 0) = false)
    (h1 : truthy (trans 1) = false) :
    get_comments_from_url trans data0 sort_by (fuel + 1) =
      .req (jgetD ((asArr (sortMenuOf data0)).getD sort_by .null) "serviceEndpoint" .null) ::
        (markerEvs (extract_comment_count data0) ++
          [.req (jgetD ((asArr (sortMenuOf data0)).getD sort_by .null)
            "serviceEndpoint" .null)]) := by
  have hcp := communityPhase_skip trans data0 hmenu
  have heff : effectiveData trans data0 = data0 := by rw [effectiveData, hcp]
  have hidx : firstCallIdx trans data0 = 0 := by rw [firstCallIdx, hcp]
  have hseed : runSeed trans data0 sort_by =
      jgetD ((asArr (sortMenuOf data0)).getD sort_by .null) "serviceEndpoint" .null := by
    rw [runSeed, heff]
  have h2 : ¬(truthy (sortMenuOf (effectiveData trans data0)) = false ∨
      (asArr (sortMenuOf (effectiveData trans data0))).length ≤ sort_by) := by
    rw [heff]
    push_neg
    exact ⟨by simp [hmenu], by omega⟩
  have h3 : truthy (trans (firstCallIdx trans data0)) = false := by
    rw [hidx]; exact h0
  rw [run_eq_falsy trans data0 sort_by (fuel + 1) hcs h2 h3, hcp, hidx, heff, hseed,
    drainLoop_stops_on_falsy trans fuel (0 + 1) _ h1]
  rfl

theorem seed_requested_twice_witness :
    get_comments_from_url transNull exData 0 1 =
      .req (jgetD ((asArr (sortMenuOf exData)).getD 0 .null) "serviceEndpoint" .null) ::
        (markerEvs (extract_comment_count exData) ++
          [.req (jgetD ((asArr (sortMenuOf exData)).getD 0 .null)
            "serviceEndpoint" .null)]) :=
  seed_requested_twice transNull exData 0 0 rfl rfl (by decide) rfl rfl

end Ytce
